import Mathlib

/-!
# Verification of the Cloud_Deployment task side-effect services

Shallow embedding of the Python services in `backend/` (recurrence engine,
notification service with its reminder state manager, reminder scheduler,
task lifecycle handler, websocket fan-out) together with proofs about the
behaviours the specification describes.

Conventions of the embedding:
* Python `datetime` values are modelled by `PyDateTime` (year/month/day and
  time-of-day fields); `timedelta(days = n)` is calendar-exact day addition,
  modelled by iterating a `nextDay` step.  ISO strings and their parsed
  datetimes are identified: a field that the source stores as
  `dt.isoformat()` and re-parses with `fromisoformat` is carried as the
  `PyDateTime` itself where only its value matters, and rendered through
  `isoformat` where the source manipulates the string.
* Python dicts are modelled as insertion-ordered association lists
  (`PyDict`), which preserves `list(d.keys())[0]` and `d.get` semantics.
* The Dapr state store is modelled per service: the recurrence engine's
  marker store maps keys to marker records; the notification service's
  store keeps reminder entities and index lists (which live under disjoint
  key prefixes in the real store) in two components.  A read of a key
  listed in `failingKeys` raises, modelling a transient store failure;
  the Python code catches these exceptions, and the model mirrors what the
  handlers do in that case.
* `datetime.now()` is passed in explicitly as a `now` parameter.
* External collaborators (the backend task service) are parameters.
-/

/-- Model of a Python `datetime`: Gregorian calendar date plus time of day. -/
structure PyDateTime where
  year : Nat
  month : Nat
  day : Nat
  hour : Nat := 0
  minute : Nat := 0
  second : Nat := 0
  microsecond : Nat := 0
deriving DecidableEq, Repr

/-- Number of days of a month, exactly as the list literal in
`RecurrenceEngine.add_months` (recurrence_engine/main.py lines 250-252):
`[31, 29 if year % 4 == 0 and (year % 100 != 0 or year % 400 == 0) else 28,
31, 30, 31, 30, 31, 31, 30, 31, 30, 31][month-1]`. -/
def monthLength (year month : Nat) : Nat :=
  [31, if year % 4 == 0 && (year % 100 != 0 || year % 400 == 0) then 29 else 28,
   31, 30, 31, 30, 31, 31, 30, 31, 30, 31].getD (month - 1) 0

/-- The Gregorian leap-year rule as the specification words it: divisible by
4, except centuries not divisible by 400.  Used only to compare with the
source's inline condition. -/
def isLeapGregorian (y : Nat) : Bool :=
  y % 4 == 0 && (y % 100 != 0 || y % 400 == 0)

/-- `RecurrenceEngine.add_months` (recurrence_engine/main.py lines 243-253):
add `months` months, clamping the day to the length of the target month;
the time-of-day fields are preserved (`dt.replace` only changes
year/month/day). -/
def add_months (dt : PyDateTime) (months : Nat) : PyDateTime :=
  let month0 := dt.month - 1 + months
  let year := dt.year + month0 / 12
  let month := month0 % 12 + 1
  let day := min dt.day (monthLength year month)
  { dt with year := year, month := month, day := day }

/-- One calendar day forward, rolling over month and year boundaries; this is
the effect of Python `timedelta(days = 1)` on a valid datetime. -/
def nextDay (dt : PyDateTime) : PyDateTime :=
  if dt.day < monthLength dt.year dt.month then { dt with day := dt.day + 1 }
  else if dt.month < 12 then { dt with month := dt.month + 1, day := 1 }
  else { dt with year := dt.year + 1, month := 1, day := 1 }

/-- Python `dt + timedelta(days = n)`: `n` single-day steps. -/
def addDays (dt : PyDateTime) (n : Nat) : PyDateTime :=
  Nat.iterate nextDay n dt

/-- Zero-pad a numeral to width 2 (strftime field). -/
def pad2 (n : Nat) : String :=
  if n < 10 then "0" ++ toString n else toString n

/-- Zero-pad a numeral to width 4 (strftime `%Y`). -/
def pad4 (n : Nat) : String :=
  if n < 10 then "000" ++ toString n
  else if n < 100 then "00" ++ toString n
  else if n < 1000 then "0" ++ toString n
  else toString n

/-- Zero-pad a numeral to width 6 (strftime `%f`, microseconds). -/
def pad6 (n : Nat) : String :=
  if n < 10 then "00000" ++ toString n
  else if n < 100 then "0000" ++ toString n
  else if n < 1000 then "000" ++ toString n
  else if n < 10000 then "00" ++ toString n
  else if n < 100000 then "0" ++ toString n
  else toString n

/-- `dt.strftime('%Y%m%d%H%M%S%f')`, the timestamp the recurrence engine
embeds in its processing identity (recurrence_engine/main.py line 68). -/
def strftimeFull (dt : PyDateTime) : String :=
  pad4 dt.year ++ pad2 dt.month ++ pad2 dt.day ++
    pad2 dt.hour ++ pad2 dt.minute ++ pad2 dt.second ++ pad6 dt.microsecond

/-- `dt.strftime('%Y%m%d%H%M%S')`, the seconds-resolution timestamp the
notification service embeds in reminder identities
(notification_service/main.py line 168). -/
def strftimeSeconds (dt : PyDateTime) : String :=
  pad4 dt.year ++ pad2 dt.month ++ pad2 dt.day ++
    pad2 dt.hour ++ pad2 dt.minute ++ pad2 dt.second

/-- `dt.isoformat()`, used only as an opaque payload string in the model. -/
def isoformat (dt : PyDateTime) : String :=
  pad4 dt.year ++ "-" ++ pad2 dt.month ++ "-" ++ pad2 dt.day ++ "T" ++
    pad2 dt.hour ++ ":" ++ pad2 dt.minute ++ ":" ++ pad2 dt.second ++
    "." ++ pad6 dt.microsecond

/-- Chronological order on datetimes (Python `<=` on `datetime`):
lexicographic on the fields. -/
def PyDateTime.le (a b : PyDateTime) : Bool :=
  if a.year ≠ b.year then a.year < b.year
  else if a.month ≠ b.month then a.month < b.month
  else if a.day ≠ b.day then a.day < b.day
  else if a.hour ≠ b.hour then a.hour < b.hour
  else if a.minute ≠ b.minute then a.minute < b.minute
  else if a.second ≠ b.second then a.second < b.second
  else a.microsecond ≤ b.microsecond

/-- Lowercase an ASCII character (the effect of Python `str.lower` on the
pattern strings in play). -/
def lowerChar (c : Char) : Char :=
  if 65 ≤ c.toNat ∧ c.toNat ≤ 90 then Char.ofNat (c.toNat + 32) else c

/-- Python `s.lower()` on ASCII strings. -/
def pyLower (s : String) : String :=
  String.mk (s.data.map lowerChar)

/-- `RecurrenceEngine.calculate_next_occurrence` dispatch on the pattern
(recurrence_engine/main.py lines 224-238), applied to the parsed completion
datetime; `weekly` uses `timedelta(weeks = 1)` which is 7 days. -/
def calculate_next_occurrence (recurrence_pattern : String)
    (completed_datetime : PyDateTime) : Option PyDateTime :=
  let p := pyLower recurrence_pattern
  if p = "daily" then some (addDays completed_datetime 1)
  else if p = "weekly" then some (addDays completed_datetime 7)
  else if p = "monthly" then some (add_months completed_datetime 1)
  else if p = "yearly" then some (add_months completed_datetime 12)
  else none

/-! ## Association-list key-value helpers (model of the Dapr state store) -/

/-- First-match lookup in an association list. -/
def alLookup {α : Type} (l : List (String × α)) (k : String) : Option α :=
  match l with
  | [] => none
  | (k', v) :: rest => if k' = k then some v else alLookup rest k

/-- Replace the first entry with key `k`, or append a new entry
(`save_state` on the store; also the write-back of a Python dict item). -/
def alSet {α : Type} (l : List (String × α)) (k : String) (v : α) :
    List (String × α) :=
  match l with
  | [] => [(k, v)]
  | (k', v') :: rest =>
      if k' = k then (k, v) :: rest else (k', v') :: alSet rest k v

/-- Remove every entry with key `k` (`delete_state` on the store,
`del d[k]` on a dict with unique keys). -/
def alRemove {α : Type} (l : List (String × α)) (k : String) :
    List (String × α) :=
  l.filter (fun p => p.1 ≠ k)

/-! ## Recurrence engine (backend/recurrence_engine/main.py) -/

namespace RecurrenceEngine

/-- Status field of a processing marker. -/
inductive MarkerStatus where
  | started
  | completed
deriving DecidableEq, Repr

/-- A processing-marker record: the JSON object
`{'status': ..., 'timestamp': datetime.now().isoformat()}`. -/
structure Marker where
  status : MarkerStatus
  timestamp : PyDateTime
deriving DecidableEq, Repr

/-- The recurrence engine's slice of the Dapr state store: marker records
keyed by `recurrence_processed:...` and `recurrence_started:...` strings. -/
def MarkerStore := List (String × Marker)
deriving DecidableEq, Repr

/-- The fields of a task-completion event that `process_completed_task`
reads (recurrence_engine/main.py lines 50-58).  `id`, `user_id`, `title`
and `description` are required by the claims' events; the optional fields
model `dict.get` returning `None` when absent. -/
structure TaskData where
  id : Int
  user_id : String
  title : String
  description : String
  recurrence_pattern : Option String := none
  recurrence_end_date : Option PyDateTime := none
  recurrence_count : Option Int := none
  priority : Option String := none
  tags : Option (List String) := none
  completed_at : Option PyDateTime := none
deriving DecidableEq, Repr

/-- The payload `create_recurring_task` sends to the backend `create_task`
method (recurrence_engine/main.py lines 261-271). -/
structure NewTask where
  user_id : String
  title : String
  description : String
  due_date : PyDateTime
  priority : String
  tags : List String
  recurrence_pattern : Option String
  recurrence_end_date : Option PyDateTime
  recurrence_count : Option Int
deriving DecidableEq, Repr

/-- The audit event `publish_recurrence_event` publishes
(recurrence_engine/main.py lines 299-307). -/
structure RecurrenceEvent where
  user_id : String
  original_task_id : Int
  new_task_id : Int
  recurrence_pattern : String
  next_occurrence : PyDateTime
deriving DecidableEq, Repr

/-- Outcome of one `process_completed_task` call: the returned boolean, the
marker store afterwards, and the externally visible side effects (tasks
created through the backend, audit events published). -/
structure EngineResult where
  success : Bool
  store : MarkerStore
  createdTasks : List NewTask
  publishedEvents : List RecurrenceEvent
deriving DecidableEq, Repr

/-- The processing identity (recurrence_engine/main.py line 68):
`f"recurrence_{user_id}_{task_id}_{datetime.now().strftime('%Y%m%d%H%M%S%f')}"`.
Note that the timestamp is taken at processing time, not from the event. -/
def processing_id (now : PyDateTime) (task : TaskData) : String :=
  "recurrence_" ++ task.user_id ++ "_" ++ toString task.id ++ "_" ++
    strftimeFull now

/-- `has_processed_recurrence` (lines 125-138): a `get_state` on the
`recurrence_processed:` key; any data means already processed, and an
exception is caught and reported as `False`. -/
def has_processed_recurrence (store : MarkerStore) (pid : String) : Bool :=
  (alLookup store ("recurrence_processed:" ++ pid)).isSome

/-- `mark_recurrence_processing_started` (lines 140-156): write a
`started` marker under the `recurrence_started:` key. -/
def mark_recurrence_processing_started (now : PyDateTime)
    (store : MarkerStore) (pid : String) : MarkerStore :=
  alSet store ("recurrence_started:" ++ pid) ⟨MarkerStatus.started, now⟩

/-- `mark_recurrence_processing_completed` (lines 158-182): write a
`completed` marker under the `recurrence_processed:` key, then delete the
`started` marker. -/
def mark_recurrence_processing_completed (now : PyDateTime)
    (store : MarkerStore) (pid : String) : MarkerStore :=
  alRemove
    (alSet store ("recurrence_processed:" ++ pid)
      ⟨MarkerStatus.completed, now⟩)
    ("recurrence_started:" ++ pid)

/-- `should_stop_recurrence` (lines 184-208): stop when an end date is set
and `datetime.now() >= end_date`, or a recurrence count is present and
`<= 0`. -/
def should_stop_recurrence (now : PyDateTime) (task : TaskData) : Bool :=
  (match task.recurrence_end_date with
   | some endDate => PyDateTime.le endDate now
   | none => false) ||
  (match task.recurrence_count with
   | some c => decide (c ≤ 0)
   | none => false)

/-- Membership of the lowered pattern string in the `RecurrencePattern`
enumeration (lines 30-34; `RecurrencePattern(recurrence_pattern.lower())`
at line 86 raises `ValueError` outside these four values). -/
def valid_pattern (recurrence_pattern : String) : Bool :=
  pyLower recurrence_pattern = "daily" ||
  pyLower recurrence_pattern = "weekly" ||
  pyLower recurrence_pattern = "monthly" ||
  pyLower recurrence_pattern = "yearly"

/-- `calculate_next_occurrence` at the task level (lines 210-241): pattern
defaults to `''`, the completion instant defaults to `datetime.now()`. -/
def calculate_next_occurrence_task (now : PyDateTime) (task : TaskData) :
    Option PyDateTime :=
  calculate_next_occurrence (task.recurrence_pattern.getD "")
    (task.completed_at.getD now)

/-- `create_recurring_task`'s request payload (lines 260-275): copy the
original's fields, default priority `'medium'` and tags `[]`, set the due
date to the computed next occurrence, and decrement the recurrence count
when present. -/
def create_recurring_task (original : TaskData)
    (next_occurrence : PyDateTime) : NewTask :=
  let base : NewTask :=
    { user_id := original.user_id
      title := original.title
      description := original.description
      due_date := next_occurrence
      priority := original.priority.getD "medium"
      tags := original.tags.getD []
      recurrence_pattern := original.recurrence_pattern
      recurrence_end_date := original.recurrence_end_date
      recurrence_count := original.recurrence_count }
  { base with recurrence_count := base.recurrence_count.map (fun c => c - 1) }

/-- `process_completed_task` (lines 47-123).  `backend` models the external
task service invoked through `invoke_method('create_task', ...)`: it maps
the request payload to the created task's id, or `none` on failure.  The
Python falsiness test `if not recurrence_pattern` treats both a missing
pattern and an empty string as "no recurrence". -/
def process_completed_task (backend : NewTask → Option Int)
    (now : PyDateTime) (store : MarkerStore) (task : TaskData) :
    EngineResult :=
  let pid := processing_id now task
  if has_processed_recurrence store pid then
    { success := true, store := store, createdTasks := [],
      publishedEvents := [] }
  else
    let store := mark_recurrence_processing_started now store pid
    let rp := task.recurrence_pattern.getD ""
    if rp = "" then
      { success := true,
        store := mark_recurrence_processing_completed now store pid,
        createdTasks := [], publishedEvents := [] }
    else if valid_pattern rp then
      if should_stop_recurrence now task then
        { success := true,
          store := mark_recurrence_processing_completed now store pid,
          createdTasks := [], publishedEvents := [] }
      else
        match calculate_next_occurrence_task now task with
        | none =>
            { success := false,
              store := mark_recurrence_processing_completed now store pid,
              createdTasks := [], publishedEvents := [] }
        | some nextOcc =>
            let newTask := create_recurring_task task nextOcc
            match backend newTask with
            | none =>
                { success := false,
                  store := mark_recurrence_processing_completed now store pid,
                  createdTasks := [], publishedEvents := [] }
            | some newId =>
                { success := true,
                  store := mark_recurrence_processing_completed now store pid,
                  createdTasks := [newTask],
                  publishedEvents :=
                    [{ user_id := task.user_id, original_task_id := task.id,
                       new_task_id := newId,
                       recurrence_pattern := pyLower rp,
                       next_occurrence := nextOcc }] }
    else
      { success := false,
        store := mark_recurrence_processing_completed now store pid,
        createdTasks := [], publishedEvents := [] }

/-- The empty marker store. -/
def emptyStore : MarkerStore := []

end RecurrenceEngine

/-! ## Python values and dicts (notification service payloads) -/

/-- A JSON-serializable Python value as the notification service uses them:
strings, ints, booleans, and `None`. -/
inductive PyVal where
  | str : String → PyVal
  | int : Int → PyVal
  | bool : Bool → PyVal
  | none : PyVal
deriving DecidableEq, Repr

/-- A Python dict with string keys, as an insertion-ordered association
list; `json.dumps`/`json.loads` round-trips preserve this order. -/
def PyDict := List (String × PyVal)
deriving DecidableEq, Repr

/-- Python truthiness of a value (`if v:`). -/
def pyTruthy : PyVal → Bool
  | PyVal.str s => s ≠ ""
  | PyVal.int n => n ≠ 0
  | PyVal.bool b => b
  | PyVal.none => false

/-- How a value renders inside an f-string. -/
def pyStrVal : PyVal → String
  | PyVal.str s => s
  | PyVal.int n => toString n
  | PyVal.bool b => if b then "True" else "False"
  | PyVal.none => "None"

/-- `d.get(k)` (first match; keys are unique by construction). -/
def dictGet (d : PyDict) (k : String) : Option PyVal :=
  alLookup d k

/-- `d[k] = v`: update in place, or append preserving insertion order. -/
def dictSet (d : PyDict) (k : String) (v : PyVal) : PyDict :=
  alSet d k v

/-- `d.update(updates)`: apply each binding of `updates` in order. -/
def dictUpdate (d updates : PyDict) : PyDict :=
  updates.foldl (fun acc kv => dictSet acc kv.1 kv.2) d

/-- `list(d.keys())`. -/
def dictKeys (d : PyDict) : List String :=
  d.map Prod.fst

/-! ## Reminder state manager (backend/notification_service/reminder_state.py) -/

namespace ReminderState

/-- The notification service's slice of the Dapr state store.  Reminder
entities (JSON dicts) and index lists (JSON arrays of reminder-id strings)
live under disjoint key prefixes in the real store and are modelled as two
components.  A read of a key in `failingKeys` raises in the Python client;
the code under verification catches that exception, and the model returns
what the corresponding handler returns in the `except` branch.  Writes
succeed. -/
structure StateStore where
  reminders : List (String × PyDict)
  indexes : List (String × List String)
  failingKeys : List String := []
deriving DecidableEq, Repr

/-- The empty, fault-free store. -/
def emptyState : StateStore := { reminders := [], indexes := [] }

/-- `get_reminder` (reminder_state.py lines 59-83): return the parsed dict,
`None` when the key has no data, and — because the `except` branch returns
`None` as well — also `None` when the read fails. -/
def get_reminder (s : StateStore) (reminder_id : String) : Option PyDict :=
  if reminder_id ∈ s.failingKeys then Option.none
  else alLookup s.reminders reminder_id

/-- `_add_to_user_task_index` (lines 240-285): read-modify-write append of
`reminder_id` to the `user_reminders:{user_id}` list and then to the
`task_reminders:{user_id}:{task_id}` list, skipping when already present.
The whole body is wrapped in one `try`, so a failing read of the user
index aborts both updates, and a failing read of the task index aborts
that one. -/
def add_to_user_task_index (user_id : String) (task_id : PyVal)
    (reminder_id : String) (s : StateStore) : StateStore :=
  let userKey := "user_reminders:" ++ user_id
  if userKey ∈ s.failingKeys then s
  else
    let userList := (alLookup s.indexes userKey).getD []
    let s :=
      if reminder_id ∈ userList then s
      else { s with indexes := alSet s.indexes userKey (userList ++ [reminder_id]) }
    let taskKey := "task_reminders:" ++ user_id ++ ":" ++ pyStrVal task_id
    if taskKey ∈ s.failingKeys then s
    else
      let taskList := (alLookup s.indexes taskKey).getD []
      if reminder_id ∈ taskList then s
      else { s with indexes := alSet s.indexes taskKey (taskList ++ [reminder_id]) }

/-- `store_reminder` (lines 28-57): stamp `updated_at`, write the entity,
then maintain the two indexes using the dict's `user_id` and `task_id`
entries (a `KeyError` there is caught after the entity write and makes the
call return `False`). -/
def store_reminder (now : PyDateTime) (reminder_id : String) (data : PyDict)
    (s : StateStore) : Bool × StateStore :=
  let data := dictSet data "updated_at" (PyVal.str (isoformat now))
  let s := { s with reminders := alSet s.reminders reminder_id data }
  match dictGet data "user_id", dictGet data "task_id" with
  | some u, some t => (true, add_to_user_task_index (pyStrVal u) t reminder_id s)
  | _, _ => (false, s)

/-- `update_reminder` (lines 85-111): read-modify-write; `False` when the
reminder cannot be read (absent or failed read). -/
def update_reminder (now : PyDateTime) (s : StateStore) (reminder_id : String)
    (updates : PyDict) : Bool × StateStore :=
  match get_reminder s reminder_id with
  | Option.none => (false, s)
  | some d =>
      let d := dictUpdate d updates
      let d := dictSet d "updated_at" (PyVal.str (isoformat now))
      (true, { s with reminders := alSet s.reminders reminder_id d })

/-- `mark_reminder_as_notified` (lines 195-199): set `notified` to `True`,
with no look at the current state beyond the read-modify-write. -/
def mark_reminder_as_notified (now : PyDateTime) (s : StateStore)
    (reminder_id : String) : Bool × StateStore :=
  update_reminder now s reminder_id [("notified", PyVal.bool true)]

/-- `cancel_reminder` (lines 208-212): set `cancelled` to `True`. -/
def cancel_reminder (now : PyDateTime) (s : StateStore)
    (reminder_id : String) : Bool × StateStore :=
  update_reminder now s reminder_id [("cancelled", PyVal.bool true)]

/-- `is_reminder_notified` (lines 201-206):
`reminder.get('notified', False) if reminder else False`. -/
def is_reminder_notified (s : StateStore) (reminder_id : String) : Bool :=
  match get_reminder s reminder_id with
  | some d => pyTruthy ((dictGet d "notified").getD (PyVal.bool false))
  | Option.none => false

/-- `is_reminder_cancelled` (lines 214-219). -/
def is_reminder_cancelled (s : StateStore) (reminder_id : String) : Bool :=
  match get_reminder s reminder_id with
  | some d => pyTruthy ((dictGet d "cancelled").getD (PyVal.bool false))
  | Option.none => false

/-- `get_task_reminders` (lines 165-193): read the
`task_reminders:{user_id}:{task_id}` index (a failing or absent read gives
the empty result), then fetch each referenced entity, silently skipping
ids that do not resolve. -/
def get_task_reminders (s : StateStore) (user_id : String) (task_id : PyVal) :
    List PyDict :=
  let key := "task_reminders:" ++ user_id ++ ":" ++ pyStrVal task_id
  if key ∈ s.failingKeys then []
  else
    match alLookup s.indexes key with
    | Option.none => []
    | some ids => ids.filterMap (fun rid => get_reminder s rid)

/-- The id `cancel_task_reminders` passes to `cancel_reminder` for one
listed reminder (reminder_state.py lines 230-231):
`reminder['id']` when the dict has an `id` key, otherwise
`reminder.get('id', '') or list(reminder.keys())[0]`, whose `get` default
`''` is falsy, so the first key of the dict. -/
def cancelTarget (r : PyDict) : String :=
  match dictGet r "id" with
  | some v => pyStrVal v
  | Option.none => ((r.headD ("", PyVal.none)).1)

/-- `cancel_task_reminders` (lines 221-238): list the task's reminders and
cancel each via `cancelTarget`; an empty dict is skipped (it is falsy in
`if reminder and ...`).  Returns the overall flag and the count of
successful cancels. -/
def cancel_task_reminders (now : PyDateTime) (s : StateStore)
    (user_id : String) (task_id : PyVal) : Bool × StateStore × Nat :=
  let rems := get_task_reminders s user_id task_id
  let step := fun (acc : StateStore × Nat) (r : PyDict) =>
    if r = ([] : PyDict) then acc
    else
      let res := cancel_reminder now acc.1 (cancelTarget r)
      (res.2, if res.1 then acc.2 + 1 else acc.2)
  let out := rems.foldl step (s, 0)
  (true, out.1, out.2)

end ReminderState

/-! ## Notification service handler (backend/notification_service/main.py) -/

namespace NotificationService

open ReminderState

/-- One dispatched notification: the `(user_id, task_title, due_date)`
triple passed to `send_notification` (main.py line 192). -/
structure SentNotification where
  user_id : String
  task_title : String
  due_date : String
deriving DecidableEq, Repr

/-- State threaded through `reminder_handler`: the reminder store plus the
list of notifications dispatched so far. -/
structure NotifState where
  store : StateStore
  sent : List SentNotification
deriving DecidableEq, Repr

/-- The reminder identity derived at main.py line 168:
`f"reminder_{user_id}_{task_id}_{datetime.now().strftime('%Y%m%d%H%M%S')}"`
— seconds resolution, from the processing instant. -/
def reminder_identity (now : PyDateTime) (user_id task_id : PyVal) : String :=
  "reminder_" ++ pyStrVal user_id ++ "_" ++ pyStrVal task_id ++ "_" ++
    strftimeSeconds now

/-- The dict stored for a fresh delivery (main.py lines 171-180); note the
insertion order of the keys and that `notified` starts `False`. -/
def freshReminderData (now : PyDateTime) (ev : PyDict)
    (user_id task_id task_title due_date : PyVal) : PyDict :=
  [("user_id", user_id), ("task_id", task_id), ("task_title", task_title),
   ("due_date", due_date), ("notified", PyVal.bool false),
   ("event_type", (dictGet ev "event_type").getD PyVal.none),
   ("timestamp", (dictGet ev "timestamp").getD (PyVal.str (isoformat now))),
   ("created_at", PyVal.str (isoformat now))]

/-- `reminder_handler` (main.py lines 142-200): validate the four required
fields, store a fresh reminder under a newly derived identity, consult
`is_reminder_notified` on that identity, and unless it reports `True`,
dispatch the notification and mark the reminder notified. -/
def reminder_handler (now : PyDateTime) (ev : PyDict) (st : NotifState) :
    NotifState :=
  let u := (dictGet ev "user_id").getD PyVal.none
  let t := (dictGet ev "task_id").getD PyVal.none
  let ti := (dictGet ev "task_title").getD PyVal.none
  let d := (dictGet ev "due_date").getD PyVal.none
  if pyTruthy u && pyTruthy t && pyTruthy ti && pyTruthy d then
    let rid := reminder_identity now u t
    let data := freshReminderData now ev u t ti d
    let store1 := (store_reminder now rid data st.store).2
    if is_reminder_notified store1 rid then
      { st with store := store1 }
    else
      let store2 := (mark_reminder_as_notified now store1 rid).2
      { store := store2,
        sent := st.sent ++ [⟨pyStrVal u, pyStrVal ti, pyStrVal d⟩] }
  else
    st

end NotificationService

/-! ## Task lifecycle handler (backend/notification_service/task_lifecycle_handler.py) -/

namespace TaskLifecycle

open ReminderState

/-- The module-level `cancel_task_reminders` defined in
task_lifecycle_handler.py lines 86-112.  Its body only logs and returns
`True`; it performs no state mutation.  Because it is defined at module
level after the `from reminder_state import cancel_task_reminders` at line
14, it shadows that import inside this module. -/
def local_cancel_task_reminders (s : StateStore) (user_id : String)
    (task_id : PyVal) : Bool × StateStore :=
  (true, s)

/-- `task_delete_handler` (lines 62-84): validate `user_id` and `task_id`,
then schedule `cancel_task_reminders(user_id, task_id)` — which resolves
to the local no-op above. -/
def task_delete_handler (ev : PyDict) (s : StateStore) : StateStore :=
  let u := (dictGet ev "user_id").getD PyVal.none
  let t := (dictGet ev "task_id").getD PyVal.none
  if pyTruthy u && pyTruthy t then
    (local_cancel_task_reminders s (pyStrVal u) t).2
  else
    s

end TaskLifecycle

/-! ## Reminder scheduler (backend/notification_service/reminder_scheduler.py) -/

namespace ReminderScheduler

/-- Process-local view of the scheduler: the module global
`checking_reminders`, the number of `check_upcoming_tasks` coroutines
currently in flight, and how many trigger invocations were skipped by the
guard. -/
structure SchedulerState where
  checking_reminders : Bool
  scansInFlight : Nat
  skipped : Nat
deriving DecidableEq, Repr

/-- The idle scheduler. -/
def initialScheduler : SchedulerState :=
  { checking_reminders := false, scansInFlight := 0, skipped := 0 }

/-- `reminder_check` (reminder_scheduler.py lines 31-51): if the flag is
set, count a skip and return; otherwise set the flag, schedule
`check_upcoming_tasks()` with `asyncio.create_task` (the scan is now in
flight and completes later), and — in the `finally` block, before the scan
has finished — clear the flag again. -/
def reminder_check (s : SchedulerState) : SchedulerState :=
  if s.checking_reminders then { s with skipped := s.skipped + 1 }
  else
    let s := { s with checking_reminders := true }
    let s := { s with scansInFlight := s.scansInFlight + 1 }
    { s with checking_reminders := false }

/-- Completion of one in-flight `check_upcoming_tasks` scan. -/
def scan_completes (s : SchedulerState) : SchedulerState :=
  { s with scansInFlight := s.scansInFlight - 1 }

end ReminderScheduler

/-! ## WebSocket fan-out (backend/websocket_service/main.py) -/

namespace WebSocketService

/-- `WebSocketManager` (main.py lines 29-35): for each user id the set of
live connection handles (a Python `set`, modelled as a duplicate-free
list), and the backward handle-to-user map.  Handles are modelled by
naturals. -/
structure WSManager where
  active_connections : List (String × List Nat)
  user_connection_map : List (Nat × String)
deriving DecidableEq, Repr

/-- First-match lookup in the handle-to-user map. -/
def connLookup (l : List (Nat × String)) (k : Nat) : Option String :=
  match l with
  | [] => Option.none
  | (k', v) :: rest => if k' = k then some v else connLookup rest k

/-- Remove a handle's entry from the handle-to-user map
(`del self.user_connection_map[websocket]`). -/
def connRemove (l : List (Nat × String)) (k : Nat) : List (Nat × String) :=
  l.filter (fun p => p.1 ≠ k)

/-- `WebSocketManager.disconnect` (main.py lines 48-59): find the handle's
user, discard the handle from that user's connection set, drop the set
when it became empty, and remove the backward-map entry. -/
def disconnect (m : WSManager) (ws : Nat) : WSManager :=
  match connLookup m.user_connection_map ws with
  | Option.none => m
  | some user_id =>
      let m1 :=
        match alLookup m.active_connections user_id with
        | Option.none => m
        | some conns =>
            let conns1 := conns.erase ws
            if conns1 = [] then
              { m with active_connections := alRemove m.active_connections user_id }
            else
              { m with active_connections := alSet m.active_connections user_id conns1 }
      { m1 with user_connection_map := connRemove m1.user_connection_map ws }

/-- `WebSocketManager.broadcast_to_user` (main.py lines 61-79): when the
user has connections, iterate over a snapshot (`.copy()`) of the set,
sending to each; a handle whose `send` raises is collected and, after the
loop, removed via `disconnect`.  `fails` says which handles' sends raise;
the first component of the result lists the handles that received the
message. -/
def broadcast_to_user (m : WSManager) (user_id : String)
    (fails : Nat → Bool) : List Nat × WSManager :=
  match alLookup m.active_connections user_id with
  | Option.none => ([], m)
  | some conns =>
      let delivered := conns.filter (fun c => !fails c)
      let connections_to_remove := conns.filter (fun c => fails c)
      (delivered, connections_to_remove.foldl disconnect m)

/-- Handles currently registered for a user. -/
def activeFor (m : WSManager) (user_id : String) : List Nat :=
  (alLookup m.active_connections user_id).getD []

end WebSocketService

/-! ## Concrete scenarios used by the closed theorems -/

/-- A completed daily task, the event both deliveries carry. -/
def c1Task : RecurrenceEngine.TaskData :=
  { id := 1, user_id := "u1", title := "Water plants",
    description := "daily chore",
    recurrence_pattern := some "daily",
    completed_at := some ⟨2025, 1, 1, 9, 0, 0, 0⟩ }

/-- A backend task service that accepts every creation request. -/
def c1Backend : RecurrenceEngine.NewTask → Option Int := fun _ => some 42

/-- Wall-clock instant of the first delivery. -/
def c1Time1 : PyDateTime := ⟨2025, 1, 1, 10, 0, 0, 0⟩

/-- Wall-clock instant of the retried delivery, one second later. -/
def c1Time2 : PyDateTime := ⟨2025, 1, 1, 10, 0, 1, 0⟩

/-- First processing of the completion event. -/
def c1Run1 : RecurrenceEngine.EngineResult :=
  RecurrenceEngine.process_completed_task c1Backend c1Time1
    RecurrenceEngine.emptyStore c1Task

/-- Retried processing of the same completion event against the store the
first run left behind. -/
def c1Run2 : RecurrenceEngine.EngineResult :=
  RecurrenceEngine.process_completed_task c1Backend c1Time2
    c1Run1.store c1Task

/-- A well-formed reminder-due event, as the scheduler publishes them. -/
def exampleReminderEvent : PyDict :=
  [("user_id", PyVal.str "u1"), ("task_id", PyVal.int 7),
   ("task_title", PyVal.str "Pay rent"),
   ("due_date", PyVal.str "2025-02-01T09:00:00"),
   ("event_type", PyVal.str "reminder_triggered"),
   ("timestamp", PyVal.str "2025-01-31T09:00:00")]

/-- Processing instant of the first delivery of the reminder event. -/
def exNow : PyDateTime := ⟨2025, 1, 31, 9, 0, 0, 0⟩

/-- Processing instant of the redelivery: half a second later, inside the
same wall-clock second, so the derived reminder identity is the same. -/
def exNow2 : PyDateTime := ⟨2025, 1, 31, 9, 0, 0, 500000⟩

/-- Notification-service state after the first delivery. -/
def c2State1 : NotificationService.NotifState :=
  NotificationService.reminder_handler exNow exampleReminderEvent
    { store := ReminderState.emptyState, sent := [] }

/-- Notification-service state after the redelivery of the same event. -/
def c2State2 : NotificationService.NotifState :=
  NotificationService.reminder_handler exNow2 exampleReminderEvent c2State1

/-- The reminder identity both deliveries derive. -/
def c2Rid : String :=
  NotificationService.reminder_identity exNow (PyVal.str "u1") (PyVal.int 7)

/-- A store holding one cancelled, not-yet-notified reminder. -/
def c2CancelledStore : ReminderState.StateStore :=
  { reminders :=
      [("r1", [("user_id", PyVal.str "u1"), ("notified", PyVal.bool false),
               ("cancelled", PyVal.bool true)])],
    indexes := [] }

/-- `mark_reminder_as_notified` applied to the cancelled reminder. -/
def c2AfterMark : Bool × ReminderState.StateStore :=
  ReminderState.mark_reminder_as_notified exNow2 c2CancelledStore "r1"

/-- `cancel_task_reminders` run against the store that holds the reminder
the handler stored for user `u1`, task `7`. -/
def c3Cancel : Bool × ReminderState.StateStore × Nat :=
  ReminderState.cancel_task_reminders exNow2 c2State1.store "u1" (PyVal.int 7)

/-- What `get_task_reminders` lists for user `u1`, task `7` after the
cancellation pass. -/
def c3After : List PyDict :=
  ReminderState.get_task_reminders c3Cancel.2.1 "u1" (PyVal.int 7)

/-- A task-deleted event for the same user and task. -/
def c3DeleteEvent : PyDict :=
  [("user_id", PyVal.str "u1"), ("task_id", PyVal.int 7)]

/-- A dict that a failed read hides: the reminder exists and is notified. -/
def c9StoredDict : PyDict :=
  [("user_id", PyVal.str "u1"), ("notified", PyVal.bool true)]

/-- A store in which the read of reminder `r9` fails. -/
def c9FailingStore : ReminderState.StateStore :=
  { reminders := [("r9", c9StoredDict)], indexes := [], failingKeys := ["r9"] }

/-- A store in which reminder `r9` simply does not exist. -/
def c9AbsentStore : ReminderState.StateStore := ReminderState.emptyState

/-- A completion event with no recurrence pattern (C6 witness). -/
def w6Task : RecurrenceEngine.TaskData :=
  { id := 2, user_id := "u2", title := "One-off errand",
    description := "no recurrence here" }

/-- A backend that rejects every creation request (never reached on the
C6 no-recurrence path). -/
def w6Backend : RecurrenceEngine.NewTask → Option Int := fun _ => Option.none

/-- A recurring task with every optional field present (C7 witness). -/
def w7Task : RecurrenceEngine.TaskData :=
  { id := 3, user_id := "u3", title := "Report", description := "monthly report",
    recurrence_pattern := some "monthly",
    recurrence_end_date := some ⟨2026, 1, 1, 0, 0, 0, 0⟩,
    recurrence_count := some 1,
    priority := some "high",
    tags := some ["work", "finance"],
    completed_at := some ⟨2025, 1, 31, 17, 0, 0, 0⟩ }

/-- A fan-out registry with two live handles for one user (C10 witness). -/
def w10Manager : WebSocketService.WSManager :=
  { active_connections := [("u1", [1, 2])],
    user_connection_map := [(1, "u1"), (2, "u1")] }

/-- Delivery to handle 1 raises; handle 2 succeeds. -/
def w10Fails : Nat → Bool := fun c => c == 1

/-! ## Helper lemmas about the store model -/

theorem alLookup_alSet_self {α : Type} (l : List (String × α)) (k : String)
    (v : α) : alLookup (alSet l k v) k = some v := by
  induction l with
  | nil => simp [alSet, alLookup]
  | cons hd tl ih =>
      obtain ⟨k', v'⟩ := hd
      by_cases h : k' = k
      · simp [alSet, alLookup, h]
      · simp [alSet, alLookup, h, ih]

theorem alLookup_alSet_ne {α : Type} (l : List (String × α)) (k k' : String)
    (v : α) (h : k ≠ k') : alLookup (alSet l k v) k' = alLookup l k' := by
  induction l with
  | nil => simp [alSet, alLookup, h]
  | cons hd tl ih =>
      obtain ⟨k0, v0⟩ := hd
      by_cases h0 : k0 = k
      · subst h0
        simp [alSet, alLookup, h]
      · simp [alSet, alLookup, h0, ih]

theorem alLookup_alRemove_self {α : Type} (l : List (String × α))
    (k : String) : alLookup (alRemove l k) k = none := by
  induction l with
  | nil => rfl
  | cons hd tl ih =>
      obtain ⟨k0, v0⟩ := hd
      by_cases h0 : k0 = k
      · simpa [alRemove, List.filter_cons, h0] using ih
      · simpa [alRemove, List.filter_cons, alLookup, h0] using ih

theorem alLookup_alRemove_ne {α : Type} (l : List (String × α))
    (k k' : String) (h : k ≠ k') :
    alLookup (alRemove l k) k' = alLookup l k' := by
  induction l with
  | nil => rfl
  | cons hd tl ih =>
      obtain ⟨k0, v0⟩ := hd
      by_cases h0 : k0 = k
      · subst h0
        have h1 : k0 ≠ k' := h
        simp [alRemove, List.filter_cons, alLookup, h1]
        simpa [alRemove] using ih
      · by_cases h1 : k0 = k'
        · simp [alRemove, List.filter_cons, alLookup, h0, h1, Ne.symm h]
        · simp [alRemove, List.filter_cons, alLookup, h0, h1]
          simpa [alRemove] using ih

theorem startedKey_ne_processedKey (pid : String) :
    ("recurrence_started:" ++ pid) ≠ ("recurrence_processed:" ++ pid) := by
  intro h
  have hlen := congrArg String.length h
  simp [String.length_append] at hlen
  exact absurd hlen (by decide)

theorem has_processed_after_completed (now : PyDateTime)
    (store : RecurrenceEngine.MarkerStore) (pid : String) :
    RecurrenceEngine.has_processed_recurrence
      (RecurrenceEngine.mark_recurrence_processing_completed now store pid)
      pid = true := by
  unfold RecurrenceEngine.has_processed_recurrence
    RecurrenceEngine.mark_recurrence_processing_completed
  rw [alLookup_alRemove_ne _ _ _ (startedKey_ne_processedKey pid),
    alLookup_alSet_self]
  rfl

/-! ## Claim theorems -/

/-- C5: for a completed task with a valid recurrence pattern the next
occurrence is computed from the completion instant: daily adds one day,
weekly seven days, monthly one calendar month and yearly twelve calendar
months, with the day-of-month clamped to the last valid day of the target
month under the Gregorian leap rule (divisible by 4, except centuries not
divisible by 400); in particular January 31 plus one month gives
February 28 (February 29 in a leap year), and February 29 plus twelve
months gives February 28 of the next year. -/
theorem C5_next_occurrence_calculation (dt : PyDateTime) :
    calculate_next_occurrence "daily" dt = some (addDays dt 1) ∧
    calculate_next_occurrence "weekly" dt = some (addDays dt 7) ∧
    calculate_next_occurrence "monthly" dt = some (add_months dt 1) ∧
    calculate_next_occurrence "yearly" dt = some (add_months dt 12) ∧
    (∀ m : Nat, (add_months dt m).day =
      min dt.day (monthLength (add_months dt m).year (add_months dt m).month)) ∧
    (∀ y : Nat, monthLength y 2 = if isLeapGregorian y then 29 else 28) ∧
    add_months ⟨2025, 1, 31, 0, 0, 0, 0⟩ 1 = ⟨2025, 2, 28, 0, 0, 0, 0⟩ ∧
    add_months ⟨2024, 1, 31, 0, 0, 0, 0⟩ 1 = ⟨2024, 2, 29, 0, 0, 0, 0⟩ ∧
    add_months ⟨2024, 2, 29, 0, 0, 0, 0⟩ 12 = ⟨2025, 2, 28, 0, 0, 0, 0⟩ :=
  ⟨rfl, rfl, rfl, rfl, fun _ => rfl, fun _ => rfl,
    by decide, by decide, by decide⟩

/-- C1: the claim says retried deliveries of the same completion event
derive the same processing identity, so N invocations create one task and
one audit event.  In the code the identity embeds
`datetime.now().strftime('%Y%m%d%H%M%S%f')` taken at processing time, so
the two deliveries of the same event get different identities, the
completed-marker check finds nothing on the retry, and a second task and a
second audit event are produced. -/
theorem C1_retried_delivery_not_deduplicated :
    RecurrenceEngine.processing_id c1Time1 c1Task ≠
      RecurrenceEngine.processing_id c1Time2 c1Task ∧
    RecurrenceEngine.has_processed_recurrence c1Run1.store
      (RecurrenceEngine.processing_id c1Time2 c1Task) = false ∧
    c1Run1.createdTasks.length = 1 ∧ c1Run2.createdTasks.length = 1 ∧
    c1Run1.publishedEvents.length = 1 ∧
    c1Run2.publishedEvents.length = 1 := by
  decide

/-- C2: the claim says that once `notified` is true delivery is never
repeated for that reminder identity, and that the notify and cancel
transitions check current state first so neither terminal state is
reachable from the other.  In the code, a redelivery of the same event in
the same wall-clock second derives the same identity, overwrites the
reminder with `notified = False` and sends a second notification even
though `notified` was true after the first delivery; and
`mark_reminder_as_notified` sets its flag without consulting `cancelled`,
so a cancelled reminder transitions to notified as well. -/
theorem C2_notified_and_cancelled_unguarded :
    NotificationService.reminder_identity exNow2 (PyVal.str "u1")
        (PyVal.int 7) = c2Rid ∧
    ReminderState.is_reminder_notified c2State1.store c2Rid = true ∧
    c2State1.sent.length = 1 ∧
    c2State2.sent.length = 2 ∧
    c2AfterMark.1 = true ∧
    ReminderState.is_reminder_notified c2AfterMark.2 "r1" = true ∧
    ReminderState.is_reminder_cancelled c2AfterMark.2 "r1" = true := by
  decide

/-- C3: the claim says that after `cancel_task_reminders(u, t)` every
reminder `get_task_reminders(u, t)` lists has `cancelled = true`.  In the
code, stored reminder dicts carry no `id` key, so the cancellation loop
resolves each reminder to the literal string `user_id` (the dict's first
key), cancels nothing, and the one listed reminder is still deliverable;
the task-deletion handler calls a module-local no-op shadow of
`cancel_task_reminders` and changes nothing either. -/
theorem C3_cancel_task_reminders_cancels_nothing :
    (ReminderState.get_task_reminders c2State1.store "u1" (PyVal.int 7)).map
        ReminderState.cancelTarget = ["user_id"] ∧
    c3Cancel.2.2 = 0 ∧
    c3After.length = 1 ∧
    (∀ d ∈ c3After,
      pyTruthy ((dictGet d "cancelled").getD (PyVal.bool false)) = false) ∧
    TaskLifecycle.task_delete_handler c3DeleteEvent c2State1.store =
      c2State1.store := by
  decide

/-- C8: the claim says a trigger invocation that arrives while a previous
scan is in flight detects this through the process-local flag and skips.
In the code the `finally` block clears `checking_reminders` immediately
after `asyncio.create_task` schedules the scan, before the scan finishes,
so the second invocation sees the flag down, skips nothing, and a second
scan is started while the first is still in flight. -/
theorem C8_overlapping_scans_not_prevented :
    ReminderScheduler.reminder_check
        (ReminderScheduler.reminder_check ReminderScheduler.initialScheduler) =
      { checking_reminders := false, scansInFlight := 2, skipped := 0 } := by
  decide

/-- C9 (counterexample): the claim says `get_reminder` distinguishes a
store failure from the reminder not existing.  Here reminder `r9` exists
with `notified = true`, but its read fails; `get_reminder` reports `none`,
exactly the outcome for the store in which `r9` is absent, and the
suppression checks report false as if there were no reminder. -/
theorem C9_failed_read_indistinguishable_from_absent :
    dictGet c9StoredDict "notified" = some (PyVal.bool true) ∧
    ReminderState.get_reminder c9FailingStore "r9" = Option.none ∧
    ReminderState.get_reminder c9AbsentStore "r9" = Option.none ∧
    ReminderState.is_reminder_notified c9FailingStore "r9" = false ∧
    ReminderState.is_reminder_cancelled c9FailingStore "r9" = false := by
  decide

theorem add_index_preserves_reminders (u : String) (t : PyVal) (rid : String)
    (s : ReminderState.StateStore) :
    (ReminderState.add_to_user_task_index u t rid s).reminders = s.reminders ∧
    (ReminderState.add_to_user_task_index u t rid s).failingKeys =
      s.failingKeys := by
  unfold ReminderState.add_to_user_task_index
  dsimp only
  split_ifs <;> simp

theorem store_reminder_components (now : PyDateTime) (rid : String)
    (data : PyDict) (s : ReminderState.StateStore) :
    (ReminderState.store_reminder now rid data s).2.reminders =
      alSet s.reminders rid
        (dictSet data "updated_at" (PyVal.str (isoformat now))) ∧
    (ReminderState.store_reminder now rid data s).2.failingKeys =
      s.failingKeys := by
  unfold ReminderState.store_reminder
  dsimp only
  set data1 := dictSet data "updated_at" (PyVal.str (isoformat now)) with hdata1
  cases hU : dictGet data1 "user_id" <;> cases hT : dictGet data1 "task_id" <;>
    simp [hU, hT, add_index_preserves_reminders]

theorem is_notified_after_store (now : PyDateTime) (rid : String)
    (data : PyDict) (s : ReminderState.StateStore)
    (hnot : dictGet data "notified" = some (PyVal.bool false)) :
    ReminderState.is_reminder_notified
      ((ReminderState.store_reminder now rid data s).2) rid = false := by
  have hc := store_reminder_components now rid data s
  unfold ReminderState.is_reminder_notified ReminderState.get_reminder
  rw [hc.1, hc.2]
  by_cases hf : rid ∈ s.failingKeys
  · simp [hf]
  · simp only [hf, if_false]
    rw [alLookup_alSet_self]
    dsimp only [dictGet, dictSet]
    have hne : ("updated_at" : String) ≠ "notified" := by decide
    unfold dictGet at hnot
    rw [alLookup_alSet_ne _ _ _ _ hne, hnot]
    rfl

/-- C4: for every reminder-due event the handler accepts (all four required
fields present and truthy), the already-notified suppression branch is not
taken: the handler stores a reminder with `notified = False` under an
identity freshly derived from the processing instant, the subsequent
`is_reminder_notified` check on that identity reports false, and the
notification is dispatched — on every delivery, redeliveries included. -/
theorem C4_dispatch_on_every_delivery (now : PyDateTime) (ev : PyDict)
    (st : NotificationService.NotifState)
    (hu : pyTruthy ((dictGet ev "user_id").getD PyVal.none) = true)
    (ht : pyTruthy ((dictGet ev "task_id").getD PyVal.none) = true)
    (hti : pyTruthy ((dictGet ev "task_title").getD PyVal.none) = true)
    (hd : pyTruthy ((dictGet ev "due_date").getD PyVal.none) = true) :
    ReminderState.is_reminder_notified
      ((ReminderState.store_reminder now
        (NotificationService.reminder_identity now
          ((dictGet ev "user_id").getD PyVal.none)
          ((dictGet ev "task_id").getD PyVal.none))
        (NotificationService.freshReminderData now ev
          ((dictGet ev "user_id").getD PyVal.none)
          ((dictGet ev "task_id").getD PyVal.none)
          ((dictGet ev "task_title").getD PyVal.none)
          ((dictGet ev "due_date").getD PyVal.none))
        st.store).2)
      (NotificationService.reminder_identity now
        ((dictGet ev "user_id").getD PyVal.none)
        ((dictGet ev "task_id").getD PyVal.none)) = false ∧
    (NotificationService.reminder_handler now ev st).sent =
      st.sent ++
        [{ user_id := pyStrVal ((dictGet ev "user_id").getD PyVal.none),
           task_title := pyStrVal ((dictGet ev "task_title").getD PyVal.none),
           due_date := pyStrVal ((dictGet ev "due_date").getD PyVal.none) }] := by
  have hnotfield : dictGet
      (NotificationService.freshReminderData now ev
        ((dictGet ev "user_id").getD PyVal.none)
        ((dictGet ev "task_id").getD PyVal.none)
        ((dictGet ev "task_title").getD PyVal.none)
        ((dictGet ev "due_date").getD PyVal.none)) "notified" =
      some (PyVal.bool false) := rfl
  have hsupp := is_notified_after_store now
    (NotificationService.reminder_identity now
      ((dictGet ev "user_id").getD PyVal.none)
      ((dictGet ev "task_id").getD PyVal.none))
    (NotificationService.freshReminderData now ev
      ((dictGet ev "user_id").getD PyVal.none)
      ((dictGet ev "task_id").getD PyVal.none)
      ((dictGet ev "task_title").getD PyVal.none)
      ((dictGet ev "due_date").getD PyVal.none))
    st.store hnotfield
  refine ⟨hsupp, ?_⟩
  unfold NotificationService.reminder_handler
  dsimp only
  rw [hu, ht, hti, hd]
  simp only [Bool.and_self, if_true]
  rw [hsupp]
  simp

/-- Witness for C4: the example reminder event, delivered to a fresh
service state, results in exactly one dispatched notification. -/
theorem C4_dispatch_on_every_delivery_witness :
    (NotificationService.reminder_handler exNow exampleReminderEvent
        { store := ReminderState.emptyState, sent := [] }).sent =
      [{ user_id := "u1", task_title := "Pay rent",
         due_date := "2025-02-01T09:00:00" }] := by
  have h := C4_dispatch_on_every_delivery exNow exampleReminderEvent
    { store := ReminderState.emptyState, sent := [] }
    (by decide) (by decide) (by decide) (by decide)
  rw [h.2]
  decide

/-- C6: on every fresh completion event on which no new task is created —
missing (or empty) recurrence pattern, unrecognized pattern, or
termination condition met — `process_completed_task` records a completed
marker for the processing identity and creates nothing; the
missing-pattern and termination cases return success while the
unrecognized-pattern case returns failure. -/
theorem C6_no_creation_records_completed
    (backend : RecurrenceEngine.NewTask → Option Int) (now : PyDateTime)
    (store : RecurrenceEngine.MarkerStore) (task : RecurrenceEngine.TaskData)
    (hfresh : RecurrenceEngine.has_processed_recurrence store
      (RecurrenceEngine.processing_id now task) = false) :
    ((task.recurrence_pattern.getD "" = "") →
      (RecurrenceEngine.process_completed_task backend now store task).success
          = true ∧
      RecurrenceEngine.has_processed_recurrence
        (RecurrenceEngine.process_completed_task backend now store task).store
        (RecurrenceEngine.processing_id now task) = true ∧
      (RecurrenceEngine.process_completed_task backend now store
          task).createdTasks = [] ∧
      (RecurrenceEngine.process_completed_task backend now store
          task).publishedEvents = []) ∧
    ((task.recurrence_pattern.getD "" ≠ "") →
      RecurrenceEngine.valid_pattern (task.recurrence_pattern.getD "") = false →
      (RecurrenceEngine.process_completed_task backend now store task).success
          = false ∧
      RecurrenceEngine.has_processed_recurrence
        (RecurrenceEngine.process_completed_task backend now store task).store
        (RecurrenceEngine.processing_id now task) = true ∧
      (RecurrenceEngine.process_completed_task backend now store
          task).createdTasks = [] ∧
      (RecurrenceEngine.process_completed_task backend now store
          task).publishedEvents = []) ∧
    ((task.recurrence_pattern.getD "" ≠ "") →
      RecurrenceEngine.valid_pattern (task.recurrence_pattern.getD "") = true →
      RecurrenceEngine.should_stop_recurrence now task = true →
      (RecurrenceEngine.process_completed_task backend now store task).success
          = true ∧
      RecurrenceEngine.has_processed_recurrence
        (RecurrenceEngine.process_completed_task backend now store task).store
        (RecurrenceEngine.processing_id now task) = true ∧
      (RecurrenceEngine.process_completed_task backend now store
          task).createdTasks = [] ∧
      (RecurrenceEngine.process_completed_task backend now store
          task).publishedEvents = []) := by
  refine ⟨?_, ?_, ?_⟩
  · intro hp
    unfold RecurrenceEngine.process_completed_task
    simp [hfresh, hp, has_processed_after_completed]
  · intro hp hv
    unfold RecurrenceEngine.process_completed_task
    simp [hfresh, hp, hv, has_processed_after_completed]
  · intro hp hv hstop
    unfold RecurrenceEngine.process_completed_task
    simp [hfresh, hp, hv, hstop, has_processed_after_completed]

/-- Witness for C6: processing the pattern-free completion event records a
completed marker and reports success. -/
theorem C6_no_creation_records_completed_witness :
    (RecurrenceEngine.process_completed_task w6Backend c1Time1
        RecurrenceEngine.emptyStore w6Task).success = true ∧
    RecurrenceEngine.has_processed_recurrence
      (RecurrenceEngine.process_completed_task w6Backend c1Time1
        RecurrenceEngine.emptyStore w6Task).store
      (RecurrenceEngine.processing_id c1Time1 w6Task) = true := by
  have h := C6_no_creation_records_completed w6Backend c1Time1
    RecurrenceEngine.emptyStore w6Task (by decide)
  exact ⟨(h.1 (by decide)).1, (h.1 (by decide)).2.1⟩

/-- C7: the task constructed for the next occurrence carries the
original's user, title, description, recurrence pattern and termination
condition, its due date is the computed next occurrence, priority and
tags are carried over when the original has them, and a present
remaining-occurrences counter is decremented by one (an absent counter
stays absent). -/
theorem C7_new_task_field_propagation (original : RecurrenceEngine.TaskData)
    (next_occurrence : PyDateTime) :
    (RecurrenceEngine.create_recurring_task original next_occurrence).user_id
        = original.user_id ∧
    (RecurrenceEngine.create_recurring_task original next_occurrence).title
        = original.title ∧
    (RecurrenceEngine.create_recurring_task original
        next_occurrence).description = original.description ∧
    (RecurrenceEngine.create_recurring_task original next_occurrence).due_date
        = next_occurrence ∧
    (RecurrenceEngine.create_recurring_task original
        next_occurrence).recurrence_pattern = original.recurrence_pattern ∧
    (RecurrenceEngine.create_recurring_task original
        next_occurrence).recurrence_end_date = original.recurrence_end_date ∧
    (∀ p, original.priority = some p →
      (RecurrenceEngine.create_recurring_task original
        next_occurrence).priority = p) ∧
    (∀ ts, original.tags = some ts →
      (RecurrenceEngine.create_recurring_task original next_occurrence).tags
        = ts) ∧
    (∀ c : Int, original.recurrence_count = some c →
      (RecurrenceEngine.create_recurring_task original
        next_occurrence).recurrence_count = some (c - 1)) ∧
    (original.recurrence_count = Option.none →
      (RecurrenceEngine.create_recurring_task original
        next_occurrence).recurrence_count = Option.none) := by
  unfold RecurrenceEngine.create_recurring_task
  refine ⟨rfl, rfl, rfl, rfl, rfl, rfl, ?_, ?_, ?_, ?_⟩
  · intro p hp
    simp [hp]
  · intro ts hts
    simp [hts]
  · intro c hc
    simp [hc]
  · intro hc
    simp [hc]

/-- Witness for C7: the monthly report task with one remaining occurrence
produces a task with priority `high`, counter `0`, and the computed due
date. -/
theorem C7_new_task_field_propagation_witness :
    (RecurrenceEngine.create_recurring_task w7Task
        ⟨2025, 2, 28, 17, 0, 0, 0⟩).priority = "high" ∧
    (RecurrenceEngine.create_recurring_task w7Task
        ⟨2025, 2, 28, 17, 0, 0, 0⟩).recurrence_count = some 0 ∧
    (RecurrenceEngine.create_recurring_task w7Task
        ⟨2025, 2, 28, 17, 0, 0, 0⟩).due_date = ⟨2025, 2, 28, 17, 0, 0, 0⟩ := by
  have h := C7_new_task_field_propagation w7Task ⟨2025, 2, 28, 17, 0, 0, 0⟩
  refine ⟨h.2.2.2.2.2.2.1 "high" rfl, ?_, h.2.2.2.1⟩
  have hc := h.2.2.2.2.2.2.2.2.1 1 rfl
  simpa using hc

/-- C9 (amended): `get_reminder` reports a failed read exactly as it
reports an absent reminder — both come back as `none` (the error is only
logged) — and the suppression checks `is_reminder_notified` and
`is_reminder_cancelled` treat a failed read as "no reminder": they report
false. -/
theorem C9_failed_read_reported_as_absent (s : ReminderState.StateStore)
    (rid : String) (h : rid ∈ s.failingKeys) :
    ReminderState.get_reminder s rid = Option.none ∧
    ReminderState.is_reminder_notified s rid = false ∧
    ReminderState.is_reminder_cancelled s rid = false := by
  unfold ReminderState.is_reminder_notified ReminderState.is_reminder_cancelled
    ReminderState.get_reminder
  simp [h]

/-- Witness for C9 (amended): the failing store with the notified reminder
`r9` produces the absent outcome and suppression says false. -/
theorem C9_failed_read_reported_as_absent_witness :
    ReminderState.get_reminder c9FailingStore "r9" = Option.none ∧
    ReminderState.is_reminder_notified c9FailingStore "r9" = false ∧
    ReminderState.is_reminder_cancelled c9FailingStore "r9" = false :=
  C9_failed_read_reported_as_absent c9FailingStore "r9" (by decide)

theorem connLookup_connRemove_self (l : List (Nat × String)) (k : Nat) :
    WebSocketService.connLookup (WebSocketService.connRemove l k) k =
      Option.none := by
  induction l with
  | nil => rfl
  | cons hd tl ih =>
      obtain ⟨k0, v0⟩ := hd
      by_cases h0 : k0 = k
      · simpa [WebSocketService.connRemove, List.filter_cons, h0] using ih
      · simpa [WebSocketService.connRemove, List.filter_cons,
          WebSocketService.connLookup, h0] using ih

theorem connLookup_connRemove_ne (l : List (Nat × String)) (k k' : Nat)
    (h : k ≠ k') :
    WebSocketService.connLookup (WebSocketService.connRemove l k) k' =
      WebSocketService.connLookup l k' := by
  induction l with
  | nil => rfl
  | cons hd tl ih =>
      obtain ⟨k0, v0⟩ := hd
      by_cases h0 : k0 = k
      · subst h0
        have h1 : k0 ≠ k' := h
        simp [WebSocketService.connRemove, List.filter_cons,
          WebSocketService.connLookup, h1]
        simpa [WebSocketService.connRemove] using ih
      · by_cases h1 : k0 = k'
        · simp [WebSocketService.connRemove, List.filter_cons,
            WebSocketService.connLookup, h0, h1, Ne.symm h]
        · simp [WebSocketService.connRemove, List.filter_cons,
            WebSocketService.connLookup, h0, h1]
          simpa [WebSocketService.connRemove] using ih

theorem disconnect_spec (m : WebSocketService.WSManager) (u : String)
    (conns : List Nat) (ws : Nat)
    (hact : alLookup m.active_connections u = some conns)
    (hmap : WebSocketService.connLookup m.user_connection_map ws = some u)
    (hmem : ws ∈ conns) :
    WebSocketService.activeFor (WebSocketService.disconnect m ws) u =
        conns.erase ws ∧
    (∀ c, c ≠ ws →
      WebSocketService.connLookup
          (WebSocketService.disconnect m ws).user_connection_map c =
        WebSocketService.connLookup m.user_connection_map c) ∧
    WebSocketService.connLookup
        (WebSocketService.disconnect m ws).user_connection_map ws =
      Option.none ∧
    (conns.erase ws ≠ [] →
      alLookup (WebSocketService.disconnect m ws).active_connections u =
        some (conns.erase ws)) := by
  unfold WebSocketService.disconnect
  rw [hmap]
  dsimp only
  rw [hact]
  dsimp only
  by_cases h0 : conns.erase ws = []
  · rw [if_pos h0]
    refine ⟨?_, ?_, ?_, ?_⟩
    · unfold WebSocketService.activeFor
      dsimp only
      rw [alLookup_alRemove_self]
      simp [h0]
    · intro c hc
      dsimp only
      exact connLookup_connRemove_ne _ _ _ (Ne.symm hc)
    · exact connLookup_connRemove_self _ _
    · intro hne
      exact absurd h0 hne
  · rw [if_neg h0]
    refine ⟨?_, ?_, ?_, ?_⟩
    · unfold WebSocketService.activeFor
      dsimp only
      rw [alLookup_alSet_self]
      rfl
    · intro c hc
      dsimp only
      exact connLookup_connRemove_ne _ _ _ (Ne.symm hc)
    · exact connLookup_connRemove_self _ _
    · intro _
      dsimp only
      rw [alLookup_alSet_self]

theorem disconnect_map_none (m : WebSocketService.WSManager) (ws c : Nat)
    (h : WebSocketService.connLookup m.user_connection_map c = Option.none) :
    WebSocketService.connLookup
      (WebSocketService.disconnect m ws).user_connection_map c =
      Option.none := by
  unfold WebSocketService.disconnect
  cases hm : WebSocketService.connLookup m.user_connection_map ws with
  | none => simpa using h
  | some u =>
      dsimp only
      have hmap : ∀ m1 : WebSocketService.WSManager,
          m1.user_connection_map = m.user_connection_map →
          WebSocketService.connLookup
            (WebSocketService.connRemove m1.user_connection_map ws) c =
            Option.none := by
        intro m1 hm1
        by_cases hc : c = ws
        · subst hc
          exact connLookup_connRemove_self _ _
        · rw [connLookup_connRemove_ne _ _ _ (Ne.symm hc), hm1, h]
      cases halt : alLookup m.active_connections u with
      | none => exact hmap m rfl
      | some conns =>
          dsimp only
          by_cases h0 : conns.erase ws = []
          · rw [if_pos h0]
            exact hmap _ rfl
          · rw [if_neg h0]
            exact hmap _ rfl

theorem foldl_disconnect_map_none (rs : List Nat) :
    ∀ (m : WebSocketService.WSManager) (c : Nat),
      WebSocketService.connLookup m.user_connection_map c = Option.none →
      WebSocketService.connLookup
        ((rs.foldl WebSocketService.disconnect m).user_connection_map) c =
        Option.none := by
  induction rs with
  | nil => intro m c h; simpa using h
  | cons r rs ih =>
      intro m c h
      exact ih (WebSocketService.disconnect m r) c
        (disconnect_map_none m r c h)

theorem foldl_disconnect_spec (u : String) (rs : List Nat) :
    ∀ (m : WebSocketService.WSManager) (conns : List Nat),
      alLookup m.active_connections u = some conns →
      conns.Nodup →
      (∀ c ∈ conns,
        WebSocketService.connLookup m.user_connection_map c = some u) →
      rs.Nodup →
      (∀ c ∈ rs, c ∈ conns) →
      ((∀ c, c ∈ WebSocketService.activeFor
          (rs.foldl WebSocketService.disconnect m) u ↔
            (c ∈ conns ∧ c ∉ rs)) ∧
       (∀ c ∈ conns, c ∈ rs →
         WebSocketService.connLookup
           (rs.foldl WebSocketService.disconnect m).user_connection_map c =
           Option.none) ∧
       (∀ c ∈ conns, c ∉ rs →
         WebSocketService.connLookup
           (rs.foldl WebSocketService.disconnect m).user_connection_map c =
           some u)) := by
  induction rs with
  | nil =>
      intro m conns hact hnd hmap _ _
      simp only [List.foldl_nil]
      refine ⟨?_, ?_, ?_⟩
      · intro c
        unfold WebSocketService.activeFor
        rw [hact]
        simp
      · intro c _ hc
        simp at hc
      · intro c hc _
        exact hmap c hc
  | cons r rs ih =>
      intro m conns hact hnd hmap hrsnd hsub
      have hr : r ∈ conns := hsub r (List.mem_cons_self r rs)
      have hrnotin : r ∉ rs := (List.nodup_cons.mp hrsnd).1
      have hrsnd1 : rs.Nodup := (List.nodup_cons.mp hrsnd).2
      have D := disconnect_spec m u conns r hact (hmap r hr) hr
      rw [List.foldl_cons]
      by_cases h0 : conns.erase r = []
      · have hrs : rs = [] := by
          apply List.eq_nil_iff_forall_not_mem.mpr
          intro c hc
          have hcc : c ∈ conns := hsub c (List.mem_cons_of_mem r hc)
          have hcr : c ≠ r := by
            intro hEq
            rw [hEq] at hc
            exact hrnotin hc
          have hce : c ∈ conns.erase r := (List.mem_erase_of_ne hcr).mpr hcc
          rw [h0] at hce
          exact absurd hce (List.not_mem_nil c)
        subst hrs
        rw [List.foldl_nil]
        refine ⟨?_, ?_, ?_⟩
        · intro c
          rw [D.1, h0]
          constructor
          · intro hc
            exact absurd hc (List.not_mem_nil c)
          · rintro ⟨hc1, hc2⟩
            have hcr : c ≠ r := by
              intro hEq
              exact hc2 (by simp [hEq])
            have hce : c ∈ conns.erase r := (List.mem_erase_of_ne hcr).mpr hc1
            rw [h0] at hce
            exact absurd hce (List.not_mem_nil c)
        · intro c _ hcr
          have hEq : c = r := by simpa using hcr
          subst hEq
          exact D.2.2.1
        · intro c hc hcr
          have hcr1 : c ≠ r := by simpa using hcr
          rw [D.2.1 c hcr1]
          exact hmap c hc
      · have hact1 := D.2.2.2 h0
        have hnd1 : (conns.erase r).Nodup := hnd.erase r
        have hmap1 : ∀ c ∈ conns.erase r,
            WebSocketService.connLookup
              (WebSocketService.disconnect m r).user_connection_map c =
              some u := by
          intro c hc
          have hcr : c ≠ r := (hnd.mem_erase_iff.mp hc).1
          rw [D.2.1 c hcr]
          exact hmap c (List.mem_of_mem_erase hc)
        have hsub1 : ∀ c ∈ rs, c ∈ conns.erase r := by
          intro c hc
          have hcr : c ≠ r := by
            intro hEq
            rw [hEq] at hc
            exact hrnotin hc
          exact (List.mem_erase_of_ne hcr).mpr
            (hsub c (List.mem_cons_of_mem r hc))
        have IH := ih (WebSocketService.disconnect m r) (conns.erase r)
          hact1 hnd1 hmap1 hrsnd1 hsub1
        refine ⟨?_, ?_, ?_⟩
        · intro c
          rw [IH.1 c, hnd.mem_erase_iff]
          constructor
          · rintro ⟨⟨hcr, hcc⟩, hcrs⟩
            exact ⟨hcc, by simp [hcr, hcrs]⟩
          · rintro ⟨hcc, hcrs⟩
            simp only [List.mem_cons, not_or] at hcrs
            exact ⟨⟨hcrs.1, hcc⟩, hcrs.2⟩
        · intro c hc hcrs
          rcases List.mem_cons.mp hcrs with hEq | hin
          · subst hEq
            exact foldl_disconnect_map_none rs _ c D.2.2.1
          · have hcr : c ≠ r := by
              intro hEq
              rw [hEq] at hin
              exact hrnotin hin
            exact IH.2.1 c ((List.mem_erase_of_ne hcr).mpr hc) hin
        · intro c hc hcrs
          simp only [List.mem_cons, not_or] at hcrs
          exact IH.2.2 c ((List.mem_erase_of_ne hcrs.1).mpr hc) hcrs.2

/-- C10: for a user whose registered handles are consistent between the
forward and backward maps, a broadcast in which some handles' delivery
raises still delivers to every non-failing handle, and by the end of the
broadcast every failing handle has been removed both from the user's
connection set and from the handle-to-user map, while each non-failing
handle remains registered. -/
theorem C10_fanout_isolation (m : WebSocketService.WSManager) (u : String)
    (fails : Nat → Bool) (conns : List Nat)
    (hact : alLookup m.active_connections u = some conns)
    (hnd : conns.Nodup)
    (hmap : ∀ c ∈ conns,
      WebSocketService.connLookup m.user_connection_map c = some u) :
    (∀ c ∈ conns, fails c = false →
      c ∈ (WebSocketService.broadcast_to_user m u fails).1) ∧
    (∀ c ∈ conns, fails c = true →
      c ∉ WebSocketService.activeFor
          (WebSocketService.broadcast_to_user m u fails).2 u ∧
      WebSocketService.connLookup
        (WebSocketService.broadcast_to_user m u fails).2.user_connection_map
        c = Option.none) ∧
    (∀ c ∈ conns, fails c = false →
      c ∈ WebSocketService.activeFor
          (WebSocketService.broadcast_to_user m u fails).2 u ∧
      WebSocketService.connLookup
        (WebSocketService.broadcast_to_user m u fails).2.user_connection_map
        c = some u) := by
  unfold WebSocketService.broadcast_to_user
  rw [hact]
  dsimp only
  have F := foldl_disconnect_spec u (conns.filter (fun c => fails c)) m conns
    hact hnd hmap (hnd.filter _) (fun c hc => (List.mem_filter.mp hc).1)
  refine ⟨?_, ?_, ?_⟩
  · intro c hc hf
    exact List.mem_filter.mpr ⟨hc, by simp [hf]⟩
  · intro c hc hf
    have hmemr : c ∈ conns.filter (fun c => fails c) :=
      List.mem_filter.mpr ⟨hc, hf⟩
    refine ⟨?_, F.2.1 c hc hmemr⟩
    intro hcIn
    exact ((F.1 c).mp hcIn).2 hmemr
  · intro c hc hf
    have hnotr : c ∉ conns.filter (fun c => fails c) := by
      intro hcr
      have hbad := (List.mem_filter.mp hcr).2
      rw [hf] at hbad
      exact Bool.false_ne_true hbad
    exact ⟨(F.1 c).mpr ⟨hc, hnotr⟩, F.2.2 c hc hnotr⟩

/-- Witness for C10: with two handles for `u1` and delivery to handle 1
raising, handle 2 still receives the message, handle 1 is removed from
both maps, and handle 2 remains registered. -/
theorem C10_fanout_isolation_witness :
    2 ∈ (WebSocketService.broadcast_to_user w10Manager "u1" w10Fails).1 ∧
    (1 ∉ WebSocketService.activeFor
        (WebSocketService.broadcast_to_user w10Manager "u1" w10Fails).2
        "u1") ∧
    WebSocketService.connLookup
      (WebSocketService.broadcast_to_user w10Manager "u1"
        w10Fails).2.user_connection_map 1 = Option.none ∧
    2 ∈ WebSocketService.activeFor
        (WebSocketService.broadcast_to_user w10Manager "u1" w10Fails).2
        "u1" := by
  have h := C10_fanout_isolation w10Manager "u1" w10Fails [1, 2] rfl
    (by decide) (by decide)
  exact ⟨h.1 2 (by decide) (by decide), (h.2.1 1 (by decide) (by decide)).1,
    (h.2.1 1 (by decide) (by decide)).2, (h.2.2 2 (by decide) (by decide)).1⟩
